import Mathlib

/-!
Shallow embedding of `src/pkit/core.py` (class `SystemMonitor`).

Python strings are modelled as `List Char`; a raised Python exception as the
`Except` layer `Py`; the filesystem, the mount table and the external tool
invocations (`hdparm`, `nvme`, `smartctl`, `ipmitool`) as explicit
environments.  File and log writes are modelled as explicit event traces.
-/

/-- Python string: a list of characters. -/
abbrev PyStr := List Char

/-- Conversion from a Lean string literal to the embedded string type. -/
def pstr (s : String) : PyStr := s.data

/-- Python exception kinds raised by the embedded code. -/
inductive PyExc where
  | attributeError
  | indexError
  | calledProcessError
  | fileNotFoundError
deriving DecidableEq, Repr

/-- Result of running a piece of Python code: a value or a raised exception. -/
abbrev Py (α : Type) := Except PyExc α

/-- Boolean prefix test, embedding `str.startswith`. -/
def isPrefixB : PyStr → PyStr → Bool
  | [], _ => true
  | _ :: _, [] => false
  | a :: p, b :: s => a == b && isPrefixB p s

/-- Embeds the Python substring test `sub in s`. -/
def pyIn (sub : PyStr) : PyStr → Bool
  | [] => sub.isEmpty
  | c :: s => isPrefixB sub (c :: s) || pyIn sub s

/-- Splits a string at every character satisfying `p`, keeping empty parts and
always returning at least one part; this is the common core of the Python
`str.split` variants used by the source. -/
def splitOnPredB (p : Char → Bool) : PyStr → List PyStr
  | [] => [[]]
  | c :: s =>
    match splitOnPredB p s, p c with
    | r, true => [] :: r
    | [], false => [[c]]
    | q :: qs, false => (c :: q) :: qs

/-- Embeds Python `s.split(sep)` for a one-character separator. -/
def splitOnCharP (sep : Char) (s : PyStr) : List PyStr :=
  splitOnPredB (· == sep) s

/-- The characters the Python `str.strip()` and bare `str.split()` treat as
whitespace (the ASCII ones; the source never meets non-ASCII whitespace). -/
def pySpace (c : Char) : Bool :=
  c == ' ' || c == '\t' || c == '\n' || c == '\r' || c == '\x0b' || c == '\x0c'

/-- Embeds Python `s.strip()`. -/
def pyStrip (s : PyStr) : PyStr :=
  ((s.dropWhile pySpace).reverse.dropWhile pySpace).reverse

/-- Embeds the bare Python `s.split()`: split on whitespace runs, dropping
empty parts. -/
def pySplitWs (s : PyStr) : List PyStr :=
  (splitOnPredB pySpace s).filter (fun q => !q.isEmpty)

/-- Embeds Python `s.split(sep, 1)[1]` for a one-character separator: the text
after the first occurrence of `sep`, or an `IndexError` when `sep` is absent
(`split(sep, 1)` then yields a single part and the index `[1]` is out of
range). -/
def pyAfterChar (sep : Char) : PyStr → Py PyStr
  | [] => .error .indexError
  | c :: s => if c == sep then .ok s else pyAfterChar sep s

/-- Python `dict` with string keys and values, as an insertion-ordered
association list in which each key occurs at most once. -/
abbrev PyDict := List (PyStr × PyStr)

/-- Embeds the Python assignment `d[k] = v`: overwrite in place when `k` is
present, otherwise append. -/
def dictSet (d : PyDict) (k v : PyStr) : PyDict :=
  if d.any (fun q => q.1 == k) then d.map (fun q => if q.1 == k then (k, v) else q)
  else d ++ [(k, v)]

/-- Embeds Python `d.get(k, dflt)`. -/
def dictGet (d : PyDict) (k dflt : PyStr) : PyStr :=
  match d.find? (fun q => q.1 == k) with
  | some q => q.2
  | none => dflt

/-- The dictionary `get_disk_info` builds at `core.py` lines 57-62. -/
structure DiskInfo where
  size : Nat
  mounted : Bool
  model : PyStr
  device : PyStr
deriving DecidableEq, Repr

/-- Environment consulted by `get_disk_info`: filesystem facts and the two
identify tools.  `hdparm_I dev` and `nvme_id_ctrl dev` are `some output` when
`subprocess.check_output` returns (exit status 0, decodable output) and `none`
when it raises (missing binary or non-zero exit).  `proc_mounts` lists the
lines of `/proc/mounts` (the trailing newline Python keeps on each line is
immaterial to the substring test and omitted). -/
structure OsEnv where
  path_exists : PyStr → Bool
  stat_st_size : PyStr → Nat
  proc_mounts : List PyStr
  hdparm_I : PyStr → Option PyStr
  nvme_id_ctrl : PyStr → Option PyStr

/-- The attribute lookup `os.path.isblock` performed at `core.py` line 25.
The CPython `os.path` module has no attribute named `isblock` in any released
version (the genuine block-device tests are `stat.S_ISBLK` and the `pathlib`
method `is_block_device`), so the lookup itself raises `AttributeError`
before any call can happen. -/
def os_path_isblock : Py (PyStr → Bool) := .error .attributeError

/-- Scan of the `hdparm -I` output lines (`core.py` lines 41-44): on the first
line containing `"Model Number:"`, return the text after the first colon,
stripped.  A raised `IndexError` is propagated so the caller can route it into
the bare `except:` branch; it cannot actually occur here because the matched
line necessarily contains a colon. -/
def scan_model_ata : List PyStr → Py PyStr
  | [] => .ok []
  | line :: rest =>
    if pyIn (pstr "Model Number:") line then
      match pyAfterChar ':' line with
      | .ok tail => .ok (pyStrip tail)
      | .error e => .error e
    else scan_model_ata rest

/-- Scan of the `nvme id-ctrl` output lines (`core.py` lines 50-53): on the
first line starting with `"mn"`, return the text after the first colon,
stripped; a line without a colon raises `IndexError`, which the caller routes
into the inner `except: pass`. -/
def scan_model_nvme : List PyStr → Py PyStr
  | [] => .ok []
  | line :: rest =>
    if isPrefixB (pstr "mn") line then
      match pyAfterChar ':' line with
      | .ok tail => .ok (pyStrip tail)
      | .error e => .error e
    else scan_model_nvme rest

/-- The fallback of the bare `except:` branch at `core.py` lines 45-55: only
when the device path starts with `/dev/nvme`, run `nvme id-ctrl` and scan its
output; any fault there hits `except: pass`, leaving `model` at its value from
line 37, which is always the empty string when this branch runs. -/
def nvme_fallback (env : OsEnv) (device : PyStr) : PyStr :=
  if isPrefixB (pstr "/dev/nvme") device then
    match env.nvme_id_ctrl device with
    | some output =>
      match scan_model_nvme (splitOnCharP '\n' output) with
      | .ok m => m
      | .error _ => []
    | none => []
  else []

/-- Model extraction (`core.py` lines 37-55): run `hdparm -I` and scan for a
`"Model Number:"` line; any exception in that `try` block (missing binary,
non-zero exit, scan fault) enters the fallback.  Note that an `hdparm` run
that exits 0 without a matching line leaves `model` empty WITHOUT entering the
fallback, since no exception is raised. -/
def model_of (env : OsEnv) (device : PyStr) : PyStr :=
  match env.hdparm_I device with
  | some output =>
    match scan_model_ata (splitOnCharP '\n' output) with
    | .ok m => m
    | .error _ => nvme_fallback env device
  | none => nvme_fallback env device

/-- The body of the `try:` block of `get_disk_info` (`core.py` lines 29-62).
In this model the body is fault-free; real-world faults inside it (an
unreadable mount table, say) are absorbed by the bare `except: return None`
at line 63 and are not modelled further. -/
def disk_info_try (env : OsEnv) (device : PyStr) : DiskInfo :=
  { size := env.stat_st_size device / 1024 ^ 3
    mounted := env.proc_mounts.any (fun line => pyIn device line)
    model := model_of env device
    device := device }

/-- Embeds `get_disk_info` (`core.py` lines 24-64).  The guard at line 25
first evaluates `os.path.exists(device)`; only when that is true does the
short-circuiting `or` evaluate `os.path.isblock`, whose lookup raises
`AttributeError` (see `os_path_isblock`) OUTSIDE the `try` block, so the
exception propagates to the caller.  The `isblock`-succeeds branch is kept to
show the intended shape of the rest of the guard and the body. -/
def get_disk_info (env : OsEnv) (device : PyStr) : Py (Option DiskInfo) :=
  if !env.path_exists device then .ok none
  else
    match os_path_isblock with
    | .error e => .error e
    | .ok isblock =>
      if !isblock device then .ok none
      else .ok (some (disk_info_try env device))

/-- Outcome of a `subprocess.check_call` invocation: the binary ran and exited
with the given status, or the binary was absent, in which case Python raises
`FileNotFoundError` rather than `CalledProcessError`. -/
inductive ToolRun where
  | exited (code : Nat)
  | missing
deriving DecidableEq, Repr

/-- Environment for `check_disk_health`: the two health tools, each mapping a
device argument to the outcome of its invocation. -/
structure HealthEnv where
  nvme_smart_log : PyStr → ToolRun
  smartctl_H : PyStr → ToolRun

/-- Observable actions of `check_disk_health`: a `log(level, message)` call
and an external tool invocation with its argument vector. -/
inductive HEvent where
  | log (level : PyStr) (message : PyStr)
  | invoke (cmd : List PyStr)
deriving DecidableEq, Repr

/-- Embeds `check_disk_health` (`core.py` lines 66-81): log `INFO`, pick the
tool purely by the substring test `"nvme" in device`, run it, and reduce the
exit status: 0 returns `True`; a non-zero exit raises `CalledProcessError`,
which the handler turns into an `ERROR` log plus `False`; a missing binary
raises `FileNotFoundError`, which the `except subprocess.CalledProcessError`
handler does not catch, so it propagates. -/
def check_disk_health (env : HealthEnv) (device : PyStr) : Py Bool × List HEvent :=
  let infoLog := HEvent.log (pstr "INFO") (pstr "Checking health of " ++ device)
  let cmd : List PyStr :=
    if pyIn (pstr "nvme") device then [pstr "nvme", pstr "smart-log", device]
    else [pstr "smartctl", pstr "-H", device]
  let run : ToolRun :=
    if pyIn (pstr "nvme") device then env.nvme_smart_log device
    else env.smartctl_H device
  match run with
  | .exited 0 => (.ok true, [infoLog, .invoke cmd])
  | .exited (_ + 1) =>
    (.ok false,
     [infoLog, .invoke cmd,
      .log (pstr "ERROR") (pstr "Failed to get health status for " ++ device)])
  | .missing => (.error .fileNotFoundError, [infoLog, .invoke cmd])

/-- Observable actions of `monitor_system`: `header f line` is an open of `f`
in truncating `"w"` mode followed by the header line; `row f line` is an open
of `f` in append `"a"` mode followed by one data line; `log` is a `self.log`
call; `sleep` is a completed `time.sleep(interval)`.  Written lines are
modelled without their trailing newline: every write in the source emits one
full `\n`-terminated line. -/
inductive MEvent where
  | header (file : PyStr) (line : PyStr)
  | row (file : PyStr) (line : PyStr)
  | log (level : PyStr) (message : PyStr)
  | sleep
deriving DecidableEq, Repr

/-- Environment of one loop iteration of `monitor_system`.  The CPU and
memory fields hold the decimal renderings of the `psutil` float values as the
f-strings print them; their numeric formatting is outside every claim, so the
model carries them opaquely.  `fan_tool` is `some output` when
`subprocess.check_output(['ipmitool', 'sdr', 'type', 'fan'])` returns decoded
output and `none` when it raises (missing binary or non-zero exit). -/
structure TickEnv where
  timestamp : PyStr
  cpu_user : PyStr
  cpu_system : PyStr
  cpu_idle : PyStr
  mem_total : PyStr
  mem_used : PyStr
  mem_free : PyStr
  mem_shared : PyStr
  mem_buff_cache : PyStr
  mem_available : PyStr
  fan_tool : Option PyStr

/-- Header of `cpu.csv` (`core.py` line 87). -/
def cpuHeader : PyStr := pstr "Timestamp,User%,System%,Idle%"

/-- Header of `fan.csv` (`core.py` line 89). -/
def fanHeader : PyStr := pstr "Timestamp,FAN1_RPM,FAN2_RPM,FAN3_RPM,FAN4_RPM,FANA_RPM"

/-- Header of `mem.csv` (`core.py` line 91). -/
def memHeader : PyStr :=
  pstr "Timestamp,Total_Memory_MB,Used_Memory_MB,Free_Memory_MB,Shared_Memory_MB,Buffer_Cache_MB,Available_Memory_MB"

/-- The data line appended to `cpu.csv` each tick (`core.py` line 99). -/
def cpu_row (e : TickEnv) : PyStr :=
  e.timestamp ++ pstr "," ++ e.cpu_user ++ pstr "," ++ e.cpu_system ++ pstr "," ++ e.cpu_idle

/-- The data line appended to `mem.csv` each tick (`core.py` lines 103-105). -/
def mem_row (e : TickEnv) : PyStr :=
  e.timestamp ++ pstr "," ++ e.mem_total ++ pstr "," ++ e.mem_used ++ pstr "," ++
    e.mem_free ++ pstr "," ++ e.mem_shared ++ pstr "," ++ e.mem_buff_cache ++ pstr "," ++
    e.mem_available

/-- One step of the fan-parsing loop (`core.py` lines 111-115): a line
containing both `"FAN"` and `"RPM"` contributes an entry
`fans[line.split('|')[0].strip()] = line.split('|')[1].strip().split()[0]`;
the index `[1]` raises `IndexError` when the line has no `|`, and the index
`[0]` raises when the field between the first two `|` is blank. -/
def fan_parse_line (fans : PyDict) (line : PyStr) : Py PyDict :=
  if pyIn (pstr "FAN") line && pyIn (pstr "RPM") line then
    match splitOnCharP '|' line with
    | p0 :: p1 :: _ =>
      match pySplitWs (pyStrip p1) with
      | rpm :: _ => .ok (dictSet fans (pyStrip p0) rpm)
      | [] => .error .indexError
    | _ => .error .indexError
  else .ok fans

/-- The whole fan-parsing loop over the decoded `ipmitool` output
(`core.py` lines 110-115), aborting at the first raised exception. -/
def parse_fans (output : PyStr) : Py PyDict :=
  (splitOnCharP '\n' output).foldlM fan_parse_line ([] : PyDict)

/-- The fixed ordered channel list of the fan row (`core.py` line 119). -/
def fan_channels : List PyStr :=
  [pstr "FAN1", pstr "FAN2", pstr "FAN3", pstr "FAN4", pstr "FANA"]

/-- The data line appended to `fan.csv` on a successful fan step
(`core.py` lines 117-121): the timestamp, then one comma-prefixed field per
channel in the fixed order, defaulting to `"0"` via `fans.get(fan, '0')`. -/
def fan_row (ts : PyStr) (fans : PyDict) : PyStr :=
  fan_channels.foldl (fun acc c => acc ++ pstr "," ++ dictGet fans c (pstr "0")) ts

/-- Event trace of one loop iteration of `monitor_system` up to its sleep
(`core.py` lines 95-123): the CPU row and the memory row unconditionally, then
the best-effort fan step, whose bare `except:` turns any fault of the tool
invocation, the parse, or the row write into a single `WARNING` log with no
fan row. -/
def tick (e : TickEnv) : List MEvent :=
  [MEvent.row (pstr "cpu.csv") (cpu_row e), MEvent.row (pstr "mem.csv") (mem_row e)] ++
    match e.fan_tool with
    | none => [MEvent.log (pstr "WARNING") (pstr "Failed to get fan information")]
    | some output =>
      match parse_fans output with
      | .ok fans => [MEvent.row (pstr "fan.csv") (fan_row e.timestamp fans)]
      | .error _ => [MEvent.log (pstr "WARNING") (pstr "Failed to get fan information")]

/-- The startup writes of `monitor_system` (`core.py` lines 86-91): each of
the three CSV files is opened in truncating `"w"` mode and receives its header
line, before the loop is entered. -/
def monitor_headers : List MEvent :=
  [MEvent.header (pstr "cpu.csv") cpuHeader,
   MEvent.header (pstr "fan.csv") fanHeader,
   MEvent.header (pstr "mem.csv") memHeader]

/-- Trace of a list of fully completed loop iterations, each followed by a
completed sleep. -/
def ticksTrace : List TickEnv → List MEvent
  | [] => []
  | e :: rest => tick e ++ MEvent.sleep :: ticksTrace rest

/-- The single `INFO` log entry of the `except KeyboardInterrupt` handler
(`core.py` line 128). -/
def stopLog : MEvent := MEvent.log (pstr "INFO") (pstr "Monitoring stopped")

/-- Event trace of one `monitor_system` run in which the single
`KeyboardInterrupt` arrives while `time.sleep` is suspended after the
iteration `last` (the only suspension point, per the cooperative-stop model):
the headers, the iterations `prior` each with a completed sleep, the final
iteration whose sleep is interrupted, then the `INFO` stop log from the
handler, after which the function returns normally — so the trace ends there
and the run has no failure outcome. -/
def monitor_run (prior : List TickEnv) (last : TickEnv) : List MEvent :=
  monitor_headers ++ ticksTrace prior ++ tick last ++ [stopLog]

/-- Contents of the three CSV files, as lists of lines. -/
structure Files where
  cpu : List PyStr
  fan : List PyStr
  mem : List PyStr
deriving DecidableEq, Repr

/-- Effect of one trace event on the three CSV files: a `header` event
truncates the named file to just the header line (mode `"w"`); a `row` event
appends one line (mode `"a"`); logs and sleeps leave the CSV files alone. -/
def applyEvent (fs : Files) : MEvent → Files
  | .header f line =>
    if f == pstr "cpu.csv" then { fs with cpu := [line] }
    else if f == pstr "fan.csv" then { fs with fan := [line] }
    else if f == pstr "mem.csv" then { fs with mem := [line] }
    else fs
  | .row f line =>
    if f == pstr "cpu.csv" then { fs with cpu := fs.cpu ++ [line] }
    else if f == pstr "fan.csv" then { fs with fan := fs.fan ++ [line] }
    else if f == pstr "mem.csv" then { fs with mem := fs.mem ++ [line] }
    else fs
  | _ => fs

/-- Folds a trace of events over an initial file state. -/
def applyTrace (fs : Files) (tr : List MEvent) : Files :=
  tr.foldl applyEvent fs

/-- Boolean test for a header event of the sink `f`. -/
def isHeaderFor (f : PyStr) : MEvent → Bool
  | .header g _ => g == f
  | _ => false

/-- Boolean test for a data-row event of the sink `f`. -/
def isRowFor (f : PyStr) : MEvent → Bool
  | .row g _ => g == f
  | _ => false

/-- In the trace `tr`, the header of the sink `f` is written exactly once,
strictly before any data row of `f`: some split of the trace puts the one
header event and no row event in the first part and no header event in the
second. -/
def headerOnceFirst (tr : List MEvent) (f : PyStr) : Prop :=
  ∃ pre post, tr = pre ++ post ∧ pre.countP (isHeaderFor f) = 1 ∧
    pre.countP (isRowFor f) = 0 ∧ post.countP (isHeaderFor f) = 0

/-- Environment for claim C1: `/etc/hosts` exists (a regular file, not a block
special file); nothing else exists; no tools are present. -/
def env_c1 : OsEnv :=
  { path_exists := fun d => d == pstr "/etc/hosts"
    stat_st_size := fun _ => 0
    proc_mounts := []
    hdparm_I := fun _ => none
    nvme_id_ctrl := fun _ => none }

/-- Environment for claim C2: every queried path exists. -/
def env_c2 : OsEnv :=
  { path_exists := fun _ => true
    stat_st_size := fun _ => 0
    proc_mounts := []
    hdparm_I := fun _ => none
    nvme_id_ctrl := fun _ => none }

/-- Environment for claim C5: the device exists, `hdparm -I` succeeds with a
`Model Number:` line, and `nvme id-ctrl` would also succeed with a DIFFERENT
model string, so the two resolution paths are distinguishable. -/
def env_c5 : OsEnv :=
  { path_exists := fun _ => true
    stat_st_size := fun _ => 0
    proc_mounts := []
    hdparm_I := fun _ =>
      some (pstr "ATA device\n\tModel Number:       Samsung SSD 970 EVO\n")
    nvme_id_ctrl := fun _ =>
      some (pstr "mn      : Samsung SSD 970 EVO NVMe\n") }

/-- Environment for claim C6: `/dev/sda` exists and the mount table holds one
line for the partition `/dev/sda1` only. -/
def env_c6 : OsEnv :=
  { path_exists := fun d => d == pstr "/dev/sda"
    stat_st_size := fun _ => 0
    proc_mounts := [pstr "/dev/sda1 / ext4 rw,relatime 0 0"]
    hdparm_I := fun _ => none
    nvme_id_ctrl := fun _ => none }

/-- Environment for claim C7: the device exists and reports a byte size of
five whole gibibytes plus some slack. -/
def env_c7 : OsEnv :=
  { path_exists := fun _ => true
    stat_st_size := fun _ => 5 * 1024 ^ 3 + 123456789
    proc_mounts := []
    hdparm_I := fun _ => none
    nvme_id_ctrl := fun _ => none }

/-- Environment for the claim C3 witness: `smartctl -H` exits 1 on every
device, `nvme smart-log` exits 0. -/
def env_c3 : HealthEnv :=
  { nvme_smart_log := fun _ => .exited 0
    smartctl_H := fun _ => .exited 1 }

/-- Tick environment for the claim C4 witness: the fan tool succeeds and
reports only the channels FAN1 and FANA. -/
def tick_env_w : TickEnv :=
  { timestamp := pstr "2026-10-12 10:00:00"
    cpu_user := pstr "1.0"
    cpu_system := pstr "2.0"
    cpu_idle := pstr "97.0"
    mem_total := pstr "16000.0"
    mem_used := pstr "500.0"
    mem_free := pstr "200.0"
    mem_shared := pstr "50.0"
    mem_buff_cache := pstr "300.0"
    mem_available := pstr "400.0"
    fan_tool := some (pstr "FAN1             | 3000 RPM          | ok\nFANA             | 2800 RPM          | ok") }

lemma countP_tick_eq_zero_of (p : MEvent → Bool)
    (hrow : ∀ f l, p (MEvent.row f l) = false)
    (hwarn : p (MEvent.log (pstr "WARNING") (pstr "Failed to get fan information")) = false)
    (e : TickEnv) : (tick e).countP p = 0 := by
  rcases hft : e.fan_tool with _ | output
  · simp [tick, hft, List.countP_cons, List.countP_append, hrow, hwarn]
  · rcases hpf : parse_fans output with ex | fans
    · simp [tick, hft, hpf, List.countP_cons, List.countP_append, hrow, hwarn]
    · simp [tick, hft, hpf, List.countP_cons, List.countP_append, hrow, hwarn]

lemma countP_ticksTrace_eq_zero (p : MEvent → Bool)
    (hrow : ∀ f l, p (MEvent.row f l) = false)
    (hwarn : p (MEvent.log (pstr "WARNING") (pstr "Failed to get fan information")) = false)
    (hsleep : p MEvent.sleep = false) (l : List TickEnv) :
    (ticksTrace l).countP p = 0 := by
  induction l with
  | nil => rfl
  | cons e rest ih =>
    simp [ticksTrace, List.countP_append, List.countP_cons,
      countP_tick_eq_zero_of p hrow hwarn e, ih, hsleep]

lemma headerOnceFirst_monitor (prior : List TickEnv) (last : TickEnv) (f : PyStr)
    (h1 : monitor_headers.countP (isHeaderFor f) = 1)
    (h0 : monitor_headers.countP (isRowFor f) = 0) :
    headerOnceFirst (monitor_run prior last) f := by
  refine ⟨monitor_headers, ticksTrace prior ++ (tick last ++ [stopLog]),
    by simp [monitor_run, List.append_assoc], h1, h0, ?_⟩
  have hrow : ∀ g l, isHeaderFor f (MEvent.row g l) = false := fun _ _ => rfl
  have hwarn : isHeaderFor f (MEvent.log (pstr "WARNING")
      (pstr "Failed to get fan information")) = false := rfl
  simp [List.countP_append, List.countP_cons,
    countP_ticksTrace_eq_zero (isHeaderFor f) hrow hwarn rfl prior,
    countP_tick_eq_zero_of (isHeaderFor f) hrow hwarn last, isHeaderFor, stopLog]

/-- Claim C1: the claim states that for every path that does not exist or is
not a block special file, `get_disk_info` returns absence, not an error.  The
non-existent half holds, but for an EXISTING non-block path the guard at
`core.py` line 25 evaluates `os.path.isblock`, an attribute the `os.path`
module does not have, so the call raises `AttributeError` instead of
returning: evaluated here at the existing regular file `/etc/hosts`. -/
theorem get_disk_info_nonblock_raises :
    get_disk_info env_c1 (pstr "/dev/doesnotexist") = .ok none ∧
    get_disk_info env_c1 (pstr "/etc/hosts") = .error .attributeError :=
  ⟨rfl, rfl⟩

/-- Claim C2: the claim states that any unexpected fault inside
`get_disk_info` collapses to absence and no error ever reaches the caller.
The `AttributeError` raised by the `os.path.isblock` lookup at line 25 sits
OUTSIDE the `try`/`except` of lines 28-64, so it propagates to the caller for
every existing path, evaluated here at `/dev/sda`. -/
theorem get_disk_info_fault_escapes :
    get_disk_info env_c2 (pstr "/dev/sda") = .error .attributeError :=
  rfl

/-- Claim C3: `check_disk_health` picks the NVMe smart-log tool exactly when
`"nvme"` occurs as a substring of the device path and the SMART tool
otherwise, with no reference to device existence; whenever the chosen tool
runs to an exit status, the call returns `True` exactly on status zero, and a
non-zero status additionally logs the `ERROR` line
`Failed to get health status for {device}`. -/
theorem check_disk_health_dispatch_exit (env : HealthEnv) (device : PyStr) (n : Nat)
    (h : (if pyIn (pstr "nvme") device then env.nvme_smart_log device
          else env.smartctl_H device) = ToolRun.exited n) :
    check_disk_health env device =
      (Except.ok (n == 0),
       [HEvent.log (pstr "INFO") (pstr "Checking health of " ++ device),
        HEvent.invoke (if pyIn (pstr "nvme") device
          then [pstr "nvme", pstr "smart-log", device]
          else [pstr "smartctl", pstr "-H", device])] ++
        if n == 0 then []
        else [HEvent.log (pstr "ERROR") (pstr "Failed to get health status for " ++ device)]) := by
  by_cases hn : pyIn (pstr "nvme") device = true
  · simp only [hn, if_true] at h ⊢
    cases n with
    | zero => simp [check_disk_health, hn, h]
    | succ k => simp [check_disk_health, hn, h]
  · rw [Bool.not_eq_true] at hn
    simp only [hn, Bool.false_eq_true, if_false] at h ⊢
    cases n with
    | zero => simp [check_disk_health, hn, h]
    | succ k => simp [check_disk_health, hn, h]

/-- Claim C3 witness: concrete run of `check_disk_health` on `/dev/sda` with
`smartctl -H` exiting 1: it dispatches to the SMART tool, returns `False`,
and logs the `ERROR` line. -/
theorem check_disk_health_dispatch_exit_witness :
    check_disk_health env_c3 (pstr "/dev/sda") =
      (Except.ok false,
       [HEvent.log (pstr "INFO") (pstr "Checking health of /dev/sda"),
        HEvent.invoke [pstr "smartctl", pstr "-H", pstr "/dev/sda"],
        HEvent.log (pstr "ERROR") (pstr "Failed to get health status for /dev/sda")]) :=
  check_disk_health_dispatch_exit env_c3 (pstr "/dev/sda") 1 rfl

/-- Claim C4: on a tick whose fan step fully succeeds, exactly one fan row is
emitted, holding the channels FAN1, FAN2, FAN3, FAN4, FANA in that fixed
order with `"0"` substituted for any channel missing from the parsed output;
on any failure of the fan step (tool invocation raising, or the parse
raising) a `WARNING` is logged and no fan row at all is emitted; the CPU row
and the memory row are appended in every case. -/
theorem tick_fan_row_policy (e : TickEnv) :
    (∀ output fans, e.fan_tool = some output → parse_fans output = .ok fans →
      tick e =
        [MEvent.row (pstr "cpu.csv") (cpu_row e), MEvent.row (pstr "mem.csv") (mem_row e),
         MEvent.row (pstr "fan.csv")
           (e.timestamp ++ pstr "," ++ dictGet fans (pstr "FAN1") (pstr "0")
              ++ pstr "," ++ dictGet fans (pstr "FAN2") (pstr "0")
              ++ pstr "," ++ dictGet fans (pstr "FAN3") (pstr "0")
              ++ pstr "," ++ dictGet fans (pstr "FAN4") (pstr "0")
              ++ pstr "," ++ dictGet fans (pstr "FANA") (pstr "0"))]) ∧
    (e.fan_tool = none →
      tick e =
        [MEvent.row (pstr "cpu.csv") (cpu_row e), MEvent.row (pstr "mem.csv") (mem_row e),
         MEvent.log (pstr "WARNING") (pstr "Failed to get fan information")]) ∧
    (∀ output ex, e.fan_tool = some output → parse_fans output = .error ex →
      tick e =
        [MEvent.row (pstr "cpu.csv") (cpu_row e), MEvent.row (pstr "mem.csv") (mem_row e),
         MEvent.log (pstr "WARNING") (pstr "Failed to get fan information")]) := by
  refine ⟨?_, ?_, ?_⟩
  · intro output fans h1 h2
    simp [tick, h1, h2, fan_row, fan_channels]
  · intro h1
    simp [tick, h1]
  · intro output ex h1 h2
    simp [tick, h1, h2]

/-- Claim C4 witness: a concrete tick whose fan tool reports only FAN1 and
FANA; the emitted fan row fills the other three channels with `0` in the
fixed order, and the CPU and memory rows are present. -/
theorem tick_fan_row_policy_witness :
    tick tick_env_w =
      [MEvent.row (pstr "cpu.csv") (cpu_row tick_env_w),
       MEvent.row (pstr "mem.csv") (mem_row tick_env_w),
       MEvent.row (pstr "fan.csv") (pstr "2026-10-12 10:00:00,3000,0,0,0,2800")] :=
  (tick_fan_row_policy tick_env_w).1
    (pstr "FAN1             | 3000 RPM          | ok\nFANA             | 2800 RPM          | ok")
    [(pstr "FAN1", pstr "3000"), (pstr "FANA", pstr "2800")] rfl rfl

/-- Claim C5: the claim describes the model-resolution order inside
`get_disk_info` (ATA result preferred, NVMe identify only as fallback, empty
string when both fail).  That computation (`core.py` lines 37-55) sits behind
the guard at line 25, whose `os.path.isblock` lookup raises `AttributeError`
for every existing device, so `get_disk_info` never returns a model at all:
on an environment where `hdparm -I` succeeds and the NVMe fallback would
yield a different string, the call errors, while the unreachable body
(`disk_info_try`) would indeed have preferred the ATA result. -/
theorem model_resolution_unreachable :
    get_disk_info env_c5 (pstr "/dev/nvme0n1") = .error .attributeError ∧
    (disk_info_try env_c5 (pstr "/dev/nvme0n1")).model = pstr "Samsung SSD 970 EVO" :=
  ⟨rfl, rfl⟩

/-- Claim C6: the claim states `mounted` is true iff the device path is a
substring of some mount-table line (with the `/dev/sda` vs `/dev/sda1`
false positive).  The mount scan (`core.py` lines 32-35) is unreachable: for
the existing device `/dev/sda` the call raises `AttributeError` from the
`os.path.isblock` lookup instead of returning a `mounted` field, while the
unreachable body would indeed report `mounted = true` from the `/dev/sda1`
table line alone. -/
theorem mounted_substring_unreachable :
    get_disk_info env_c6 (pstr "/dev/sda") = .error .attributeError ∧
    (disk_info_try env_c6 (pstr "/dev/sda")).mounted = true :=
  ⟨rfl, rfl⟩

/-- Claim C7: the claim states the `size` field equals the reported byte size
floor-divided by `2^30`.  The size computation (`core.py` lines 29-30) is
unreachable: for an existing device with byte size `5 * 2^30 + 123456789`
the call raises `AttributeError` from the `os.path.isblock` lookup instead of
returning a `size` field, while the unreachable body would indeed compute
`5`. -/
theorem size_floor_div_unreachable :
    get_disk_info env_c7 (pstr "/dev/sdb") = .error .attributeError ∧
    (disk_info_try env_c7 (pstr "/dev/sdb")).size = 5 :=
  ⟨rfl, rfl⟩

/-- Claim C8: in every sampler run, each of the three CSV sinks has its header
written exactly once, strictly before any data row appended to that sink. -/
theorem monitor_header_once_before_rows (prior : List TickEnv) (last : TickEnv) :
    headerOnceFirst (monitor_run prior last) (pstr "cpu.csv") ∧
    headerOnceFirst (monitor_run prior last) (pstr "fan.csv") ∧
    headerOnceFirst (monitor_run prior last) (pstr "mem.csv") :=
  ⟨headerOnceFirst_monitor prior last _ (by decide) (by decide),
   headerOnceFirst_monitor prior last _ (by decide) (by decide),
   headerOnceFirst_monitor prior last _ (by decide) (by decide)⟩

/-- Claim C9: when the stop signal arrives during the sleep, the run ends
with exactly one `INFO` "Monitoring stopped" log entry as its very last
event, so no CSV or log write follows it and the entry occurs once in the
whole trace. -/
theorem monitor_stop_log_last (prior : List TickEnv) (last : TickEnv) :
    ∃ pre, monitor_run prior last = pre ++ [stopLog] ∧
      pre.countP (fun ev => ev == stopLog) = 0 := by
  refine ⟨monitor_headers ++ ticksTrace prior ++ tick last,
    by simp [monitor_run, List.append_assoc], ?_⟩
  have hrow : ∀ g l, ((MEvent.row g l == stopLog) : Bool) = false := fun _ _ => rfl
  have hwarn : ((MEvent.log (pstr "WARNING") (pstr "Failed to get fan information")
      == stopLog) : Bool) = false := by decide
  simp [List.countP_append,
    countP_ticksTrace_eq_zero (fun ev => ev == stopLog) hrow hwarn rfl prior,
    countP_tick_eq_zero_of (fun ev => ev == stopLog) hrow hwarn last]
  decide

/-- Claim C10: starting the sampler truncates `cpu.csv`, `fan.csv` and
`mem.csv` before the loop is entered, so that whatever the three files held
from a previous run, immediately after the startup writes each file consists
solely of its header line. -/
theorem monitor_startup_truncates (prev : Files) (prior : List TickEnv) (last : TickEnv) :
    ∃ rest, monitor_run prior last = monitor_headers ++ rest ∧
      applyTrace prev monitor_headers =
        { cpu := [cpuHeader], fan := [fanHeader], mem := [memHeader] } := by
  refine ⟨ticksTrace prior ++ tick last ++ [stopLog],
    by simp [monitor_run, List.append_assoc], ?_⟩
  rcases prev with ⟨c, f, m⟩
  rfl
